import Mathlib

/-!
Shallow embedding of the `windows-b2-rclone-backup` scripts.

Strings that need character-level reasoning (extensions, exclusion-file
lines, upload keys) are modelled as `List Char`; Python's filesystem and
network effects are made explicit: the recursive traversal becomes a list
of `FsEntry` records (one per filesystem entry yielded by `Path.rglob`),
and what `bucket.upload` would do for a given file is an `Option` field of
the entry (`none` = the call returns, `some msg` = the call raises an
exception carrying `msg`).
-/

namespace B2Backup

/-- Python `str.isspace`-style whitespace used by `str.strip()`,
restricted to the ASCII whitespace characters. -/
def pyIsSpace (c : Char) : Bool :=
  c = ' ' || c = '\t' || c = '\n' || c = '\r' || c = '\x0b' || c = '\x0c'

/-- Python `str.strip()`: remove whitespace from both ends. -/
def pyStrip (s : List Char) : List Char :=
  ((s.dropWhile pyIsSpace).reverse.dropWhile pyIsSpace).reverse

/-- Python `str.lower()` on one character, for the ASCII range
(the extensions and exclusion entries of this program). -/
def pyLowerChar (c : Char) : Char :=
  if 'A' ≤ c ∧ c ≤ 'Z' then Char.ofNat (c.toNat + 32) else c

/-- Python `str.lower()` (ASCII range). -/
def pyLower (s : List Char) : List Char := s.map pyLowerChar

/-- Python `str.replace("\\", "/")` — the pattern is a single character,
so the substring replacement is a character map. -/
def pyReplaceBackslash (s : List Char) : List Char :=
  s.map fun c => if c = '\\' then '/' else c

/-- Python str(path): join the path components with the host separator. -/
def joinWithSep (sep : Char) : List (List Char) → List Char
  | [] => []
  | [x] => x
  | x :: y :: xs => x ++ sep :: joinWithSep sep (y :: xs)

namespace BackupToB2

/-! ### `backup_to_b2.py` -/

/-- Model of BackupStats.__init__ (backup_to_b2.py lines 68-74): three counters
and the ordered error list, all starting empty.  `start_time` is a
wall-clock reading with no logical content and is not modelled. -/
structure BackupStats where
  files_uploaded : Nat
  files_failed : Nat
  files_skipped : Nat
  errors : List (List Char)
deriving Repr, DecidableEq

/-- A fresh `BackupStats()`. -/
def BackupStats.init : BackupStats :=
  { files_uploaded := 0, files_failed := 0, files_skipped := 0, errors := [] }

/-- The sum the spec's invariant is about. -/
def BackupStats.total (s : BackupStats) : Nat :=
  s.files_uploaded + s.files_skipped + s.files_failed

/-- One filesystem entry yielded by `root.rglob("*")`:
whether `is_file()` holds, the `relative_to(root)` path components,
the `Path.suffix` of the name, and what `bucket.upload` would do for it
(`none` = success, `some msg` = raise an exception rendering as `msg`). -/
structure FsEntry where
  isFile : Bool
  rel : List (List Char)
  suffix : List Char
  uploadExc : Option (List Char)
deriving Repr, DecidableEq

/-- The run's observable state: the stats object plus the ordered list of
remote keys actually passed to `bucket.upload`. -/
structure RunState where
  stats : BackupStats
  uploads : List (List Char)
deriving Repr, DecidableEq

/-- Model of should_exclude (backup_to_b2.py lines 148-154).  The exclusion file
is `none` when `EXCLUDE_PATH` does not exist, otherwise `some lines` with
the file's raw lines.  The set comprehension
`{line.strip() for line in f if line.strip()}` strips each line and keeps
the non-empty results; membership of the lower-cased suffix is then
tested against those entries verbatim (the entries themselves are NOT
lower-cased here, unlike in old_goody.py). -/
def should_exclude (excludeFile : Option (List (List Char))) (suffix : List Char) : Bool :=
  match excludeFile with
  | none => false
  | some lines =>
      let ext := pyLower suffix
      let excluded := (lines.map pyStrip).filter fun l => !l.isEmpty
      excluded.contains ext

/-- Line 171: `str(file.relative_to(root)).replace("\\", "/")`. -/
def remoteKey (sep : Char) (rel : List (List Char)) : List Char :=
  pyReplaceBackslash (joinWithSep sep rel)

/-- The body of the `for file in root.rglob("*")` loop
(backup_to_b2.py lines 162-180) for one entry: skip non-files, count
excluded files as skipped without an upload call, otherwise call
`bucket.upload` and on an exception (caught by the `try`/`except` at
lines 173-180) count the failure and append `f"{remote}: {e}"`. -/
def processEntry (excludeFile : Option (List (List Char))) (sep : Char)
    (st : RunState) (e : FsEntry) : RunState :=
  if e.isFile = false then st
  else if should_exclude excludeFile e.suffix then
    { st with stats := { st.stats with files_skipped := st.stats.files_skipped + 1 } }
  else
    let remote := remoteKey sep e.rel
    match e.uploadExc with
    | none =>
        { stats := { st.stats with files_uploaded := st.stats.files_uploaded + 1 },
          uploads := st.uploads ++ [remote] }
    | some msg =>
        { stats := { st.stats with
            files_failed := st.stats.files_failed + 1,
            errors := st.stats.errors ++ [remote ++ ':' :: ' ' :: msg] },
          uploads := st.uploads ++ [remote] }

/-- Model of upload_directory_to_b2 (backup_to_b2.py lines 156-180): the loop
over every entry of the traversal, threading the mutable state. -/
def upload_directory_to_b2 (excludeFile : Option (List (List Char))) (sep : Char)
    (entries : List FsEntry) (st : RunState) : RunState :=
  entries.foldl (processEntry excludeFile sep) st

/-- One HTTP POST issued by the notifier: the webhook URL, the summary
text, and whether the log file was attached. -/
structure PostCall where
  url : String
  content : String
  hasAttachment : Bool
deriving Repr, DecidableEq

/-- The f-string summary built at backup_to_b2.py lines 189-195.  The
duration is a wall-clock reading, passed in already rendered. -/
def summaryText (stats : BackupStats) (duration : String) : String :=
  "🗄️ **B2 Backup Complete**\n📦 Uploaded: " ++ toString stats.files_uploaded ++
  "\n⏭️ Skipped: " ++ toString stats.files_skipped ++
  "\n❌ Failed: " ++ toString stats.files_failed ++
  "\n⏱️ Duration: " ++ duration ++ " seconds"

/-- Model of send_discord_summary (backup_to_b2.py lines 185-206).
`webhook_url` is `none` when `DISCORD_WEBHOOK_URL` is unset; Python's
`if not webhook_url` is also true for the empty string.  `postExc` is
what `requests.post` would do (`none` = returns, `some msg` = raises);
the `try`/`except` at lines 203-206 catches any such exception and logs
it.  The result is `Except`-valued so that an exception escaping the
function would show as `.error`; the value carries the POST calls made
and the stats object, which the function only reads. -/
def send_discord_summary (webhook_url : Option String) (stats : BackupStats)
    (duration : String) (logExists : Bool) (logSize : Nat)
    (postExc : Option String) : Except String (List PostCall × BackupStats) :=
  match webhook_url with
  | none => .ok ([], stats)
  | some u =>
      if u = "" then .ok ([], stats)
      else
        let summary := summaryText stats duration
        let withFile := logExists && logSize < 7500000
        match postExc with
        | none => .ok ([⟨u, summary, withFile⟩], stats)
        | some _ => .ok ([⟨u, summary, withFile⟩], stats)

/-- Model of main (backup_to_b2.py lines 211-228), from the point where
authentication has succeeded.  `rootEntries` is `none` when the
configured `BACKUP_PATH` does not exist: `Path.rglob` then yields no
entries (pathlib's selector returns an empty iterator for a non-directory
root) — `main` performs no existence check of its own.  Returns the
process exit code (0 when `main` returns, 1 for an uncaught exception)
together with the final run state and the notifier's POST calls. -/
def b2main (rootEntries : Option (List FsEntry)) (excludeFile : Option (List (List Char)))
    (sep : Char) (webhook_url : Option String) (duration : String)
    (logExists : Bool) (logSize : Nat) (postExc : Option String) :
    Nat × RunState × List PostCall :=
  match send_discord_summary webhook_url
      (upload_directory_to_b2 excludeFile sep (rootEntries.getD [])
        { stats := BackupStats.init, uploads := [] }).stats
      duration logExists logSize postExc with
  | .ok (calls, _) =>
      (0, upload_directory_to_b2 excludeFile sep (rootEntries.getD [])
        { stats := BackupStats.init, uploads := [] }, calls)
  | .error _ =>
      (1, upload_directory_to_b2 excludeFile sep (rootEntries.getD [])
        { stats := BackupStats.init, uploads := [] }, [])

end BackupToB2

namespace OldGoody

/-! ### `old_goody.py` -/

/-- One invocation of the host scheduler: either the `schtasks /Create`
command built at old_goody.py lines 120-128, or a query for a task by
name (`schtasks /Query /TN name` — no such call exists in the source;
the constructor is here so its absence can be stated). -/
inductive SchedCall where
  | create (taskName : String) (frequency : String) (startTime : List Char) (force : Bool)
  | query (taskName : String)
deriving Repr, DecidableEq

/-- Whether a scheduler call is a query. -/
def SchedCall.isQueryCall : SchedCall → Bool
  | .query _ => true
  | _ => false

/-- Python `s.split(':')`: `"" ↦ [""]`, separators never merged. -/
def pySplitColon (s : List Char) : List (List Char) :=
  match s with
  | [] => [[]]
  | c :: rest =>
      match pySplitColon rest, decide (c = ':') with
      | r, true => [] :: r
      | [], false => [[c]]
      | x :: xs, false => (c :: x) :: xs

/-- Python `s.zfill(2)` for the unsigned time components used here. -/
def zfill2 (s : List Char) : List Char :=
  if s.length ≥ 2 then s else List.replicate (2 - s.length) '0' ++ s

/-- Model of schedule_task (old_goody.py lines 115-131): destructure
`schedule_time.split(':')` into hour and minute (raising `ValueError`
when the split does not have exactly two parts), then run a single
`schtasks /Create /SC DAILY /TN BackupToBackblazeB2 ... /F` command via
`subprocess.run`, whose exit status is discarded.  No other scheduler
call is made. -/
def schedule_task (schedule_time : List Char) : Except String (List SchedCall) :=
  match pySplitColon schedule_time with
  | [hour, minute] =>
      .ok [SchedCall.create "BackupToBackblazeB2" "DAILY"
        (zfill2 hour ++ ':' :: zfill2 minute) true]
  | _ => .error "ValueError: unpack"

/-- The tail of `main` (old_goody.py lines 137-139): call
`schedule_task`, then print the success banner unconditionally.
`createExitCode` is the exit status of the `schtasks` command; the
source never reads it, and the returned `Bool` (whether the run reports
"task scheduled") is `true` whenever `schedule_task` returns. -/
def main_schedule_and_report (schedule_time : List Char) (createExitCode : Nat) :
    Except String (List SchedCall × Bool) :=
  match schedule_task schedule_time with
  | .ok calls =>
      let _ := createExitCode
      .ok (calls, true)
  | .error e => .error e

end OldGoody

namespace InteractiveScript

/-! ### `Backup-ToB2.py` -/

/-- Model of get_user_input (Backup-ToB2.py lines 21-32): after collecting the
four inputs, `sys.exit(1)` when `os.path.isdir(directory)` is false;
`.error n` is an exit with code `n`. -/
def get_user_input (dirIsDir : Bool)
    (key_id app_key bucket_name directory : String) :
    Except Nat (String × String × String × String) :=
  if dirIsDir = false then .error 1
  else .ok (key_id, app_key, bucket_name, directory)

/-- Model of backup_to_b2 (Backup-ToB2.py lines 35-56), after authentication:
`sys.exit(1)` when the bucket does not exist, otherwise upload every
regular file under the root keyed by `relative_to(...).as_posix()`.
Returns the ordered upload keys. -/
def backup_to_b2 (bucketExists : Bool)
    (entries : List (Bool × List (List Char))) : Except Nat (List (List Char)) :=
  if bucketExists = false then .error 1
  else .ok ((entries.filter (·.1)).map fun e => B2Backup.joinWithSep '/' e.2)

/-- The script's `__main__` block (Backup-ToB2.py lines 59-64):
`get_user_input` then `backup_to_b2`; a `sys.exit` in either
short-circuits the rest. -/
def script_main (dirIsDir : Bool) (key_id app_key bucket_name directory : String)
    (bucketExists : Bool) (entries : List (Bool × List (List Char))) :
    Except Nat (List (List Char)) :=
  match get_user_input dirIsDir key_id app_key bucket_name directory with
  | .error n => .error n
  | .ok _ => backup_to_b2 bucketExists entries

end InteractiveScript

/-! ## Lemmas about one loop iteration -/

namespace BackupToB2

/-- A non-file entry leaves the run state untouched. -/
theorem processEntry_non_file (ex : Option (List (List Char))) (sep : Char)
    (st : RunState) (e : FsEntry) (h : e.isFile = false) :
    processEntry ex sep st e = st := by
  unfold processEntry
  simp [h]

/-- Each loop iteration adds the entry's file-ness to the counter sum. -/
theorem processEntry_total (ex : Option (List (List Char))) (sep : Char)
    (st : RunState) (e : FsEntry) :
    (processEntry ex sep st e).stats.total
      = st.stats.total + (if e.isFile then 1 else 0) := by
  unfold processEntry
  cases hf : e.isFile with
  | false => simp [BackupStats.total]
  | true =>
    by_cases hx : should_exclude ex e.suffix
    · simp [hx, BackupStats.total]
      omega
    · cases hu : e.uploadExc <;> simp [hx, hu, BackupStats.total] <;> omega

/-- The loop adds the number of regular files to the counter sum. -/
theorem upload_directory_total (ex : Option (List (List Char))) (sep : Char)
    (entries : List FsEntry) (st : RunState) :
    (upload_directory_to_b2 ex sep entries st).stats.total
      = st.stats.total + entries.countP (fun e => e.isFile) := by
  induction entries generalizing st with
  | nil => simp [upload_directory_to_b2]
  | cons e es ih =>
    rw [upload_directory_to_b2, List.foldl_cons, ← upload_directory_to_b2, ih,
      processEntry_total, List.countP_cons]
    omega

/-- C1: once upload orchestration finishes, uploaded + skipped + failed
equals the number of regular files visited — starting from fresh stats,
the final counter sum is the count of entries with `is_file()` true, and
`processEntry` never touches the state for a non-file entry. -/
theorem counters_sum_to_file_count :
    (∀ ex sep entries,
      (upload_directory_to_b2 ex sep entries
          { stats := BackupStats.init, uploads := [] }).stats.files_uploaded
        + (upload_directory_to_b2 ex sep entries
          { stats := BackupStats.init, uploads := [] }).stats.files_skipped
        + (upload_directory_to_b2 ex sep entries
          { stats := BackupStats.init, uploads := [] }).stats.files_failed
        = entries.countP fun e => e.isFile)
    ∧ ∀ ex sep st e, e.isFile = false → processEntry ex sep st e = st := by
  refine ⟨fun ex sep entries => ?_, processEntry_non_file⟩
  have h := upload_directory_total ex sep entries
    { stats := BackupStats.init, uploads := [] }
  simpa [BackupStats.total, BackupStats.init] using h

/-- Witness for C1 at a concrete two-entry traversal (one file, one
directory): the sum is 1 and the directory entry is a no-op. -/
theorem counters_sum_to_file_count_check :
    ((upload_directory_to_b2 none '/'
        [⟨true, [['a']], [], none⟩, ⟨false, [['d']], [], none⟩]
        { stats := BackupStats.init, uploads := [] }).stats.files_uploaded
      + (upload_directory_to_b2 none '/'
        [⟨true, [['a']], [], none⟩, ⟨false, [['d']], [], none⟩]
        { stats := BackupStats.init, uploads := [] }).stats.files_skipped
      + (upload_directory_to_b2 none '/'
        [⟨true, [['a']], [], none⟩, ⟨false, [['d']], [], none⟩]
        { stats := BackupStats.init, uploads := [] }).stats.files_failed
      = 1)
    ∧ processEntry none '/' { stats := BackupStats.init, uploads := [] }
        ⟨false, [['d']], [], none⟩
      = { stats := BackupStats.init, uploads := [] } := by
  constructor
  · have h := counters_sum_to_file_count.1 none '/'
      [⟨true, [['a']], [], none⟩, ⟨false, [['d']], [], none⟩]
    simpa using h
  · exact counters_sum_to_file_count.2 none '/' _ _ rfl

/-- C2: an upload failure on one file is caught by the per-file
`try`/`except`: the loop records the failure (counter, error detail) for
that file and then processes every remaining entry of the traversal —
running the loop on `xs ++ f :: ys` equals recording `f`'s failure after
processing `xs` and then continuing with all of `ys`. -/
theorem failure_isolated_and_traversal_continues
    (ex : Option (List (List Char))) (sep : Char) (xs ys : List FsEntry)
    (f : FsEntry) (st : RunState) (msg : List Char)
    (hf : f.isFile = true) (hx : should_exclude ex f.suffix = false)
    (hu : f.uploadExc = some msg) :
    upload_directory_to_b2 ex sep (xs ++ f :: ys) st
      = upload_directory_to_b2 ex sep ys
          { stats := { (upload_directory_to_b2 ex sep xs st).stats with
              files_failed := (upload_directory_to_b2 ex sep xs st).stats.files_failed + 1,
              errors := (upload_directory_to_b2 ex sep xs st).stats.errors
                ++ [remoteKey sep f.rel ++ ':' :: ' ' :: msg] },
            uploads := (upload_directory_to_b2 ex sep xs st).uploads ++ [remoteKey sep f.rel] } := by
  unfold upload_directory_to_b2
  rw [List.foldl_append, List.foldl_cons]
  congr 1
  unfold processEntry
  simp [hf, hx, hu]

/-- Witness for C2: a three-file traversal whose middle upload raises;
the other two files are still uploaded and the stats record the one
failure with its detail string. -/
theorem failure_isolated_check :
    upload_directory_to_b2 none '/'
        [⟨true, [['a']], [], none⟩, ⟨true, [['b']], [], some ['x']⟩,
          ⟨true, [['c']], [], none⟩]
        { stats := BackupStats.init, uploads := [] }
      = (⟨⟨2, 1, 0, [['b', ':', ' ', 'x']]⟩, [['a'], ['b'], ['c']]⟩ : RunState) :=
  (failure_isolated_and_traversal_continues none '/'
      [⟨true, [['a']], [], none⟩] [⟨true, [['c']], [], none⟩]
      ⟨true, [['b']], [], some ['x']⟩
      { stats := BackupStats.init, uploads := [] } ['x'] rfl rfl rfl).trans (by decide)

/-- C3: a regular file whose (lower-cased) extension is excluded is
counted as skipped with no change to the upload-call list; and an absent
exclusion file, or one whose stripped non-empty entries are none,
excludes nothing. -/
theorem excluded_skipped_and_empty_set_never_excludes :
    (∀ ex sep st e, e.isFile = true → should_exclude ex e.suffix = true →
      processEntry ex sep st e
        = { st with stats :=
            { st.stats with files_skipped := st.stats.files_skipped + 1 } })
    ∧ (∀ suffix, should_exclude none suffix = false)
    ∧ (∀ lines suffix,
        (lines.map pyStrip).filter (fun l => !l.isEmpty) = [] →
        should_exclude (some lines) suffix = false) := by
  refine ⟨fun ex sep st e hf hx => ?_, fun suffix => rfl, fun lines suffix h => ?_⟩
  · unfold processEntry
    simp [hf, hx]
  · unfold should_exclude
    simp only [h, List.contains_nil]

/-- Witness for C3: a `.tmp` file against the exclusion list `[".tmp"]`
is skipped with no upload call; an absent exclusion file and a
blank-line-only exclusion file exclude nothing. -/
theorem excluded_skipped_check :
    processEntry (some [['.', 't', 'm', 'p']]) '/'
        { stats := BackupStats.init, uploads := [] }
        ⟨true, [['b', '.', 't', 'm', 'p']], ['.', 't', 'm', 'p'], none⟩
      = (⟨⟨0, 0, 1, []⟩, []⟩ : RunState)
    ∧ should_exclude none ['.', 't', 'm', 'p'] = false
    ∧ should_exclude (some [[' ']]) ['.', 't', 'm', 'p'] = false :=
  ⟨excluded_skipped_and_empty_set_never_excludes.1
      (some [['.', 't', 'm', 'p']]) '/' _ _ rfl (by decide),
    excluded_skipped_and_empty_set_never_excludes.2.1 _,
    excluded_skipped_and_empty_set_never_excludes.2.2 [[' ']] _ (by decide)⟩

/-- The `replace("\\", "/")` output never contains a backslash. -/
theorem pyReplaceBackslash_no_backslash (s : List Char) :
    '\\' ∉ pyReplaceBackslash s := by
  unfold pyReplaceBackslash
  intro h
  obtain ⟨a, _, ha⟩ := List.mem_map.mp h
  by_cases h' : a = '\\' <;> simp [h'] at ha

/-- Replacing backslashes is the identity on backslash-free strings. -/
theorem pyReplaceBackslash_eq_self (s : List Char) (h : '\\' ∉ s) :
    pyReplaceBackslash s = s := by
  induction s with
  | nil => rfl
  | cons a as ih =>
    have ha : ¬a = '\\' := fun e => h (e ▸ List.mem_cons_self a as)
    have has := ih fun m => h (List.mem_cons_of_mem a m)
    unfold pyReplaceBackslash at has ⊢
    simp only [List.map_cons, has, if_neg ha]

/-- Rendering the relative path with either host separator and then
replacing backslashes yields the forward-slash join, as long as the
components themselves are backslash-free. -/
theorem remoteKey_forward (sep : Char) (hsep : sep = '/' ∨ sep = '\\') :
    ∀ rel : List (List Char), (∀ c ∈ rel, '\\' ∉ c) →
    remoteKey sep rel = joinWithSep '/' rel := by
  intro rel
  induction rel with
  | nil => intro _; rfl
  | cons x xs ih =>
    intro hcomp
    have hx : '\\' ∉ x := hcomp x (List.mem_cons_self x xs)
    cases xs with
    | nil =>
      show pyReplaceBackslash (joinWithSep sep [x]) = joinWithSep '/' [x]
      rw [joinWithSep, joinWithSep, pyReplaceBackslash_eq_self x hx]
    | cons y ys =>
      have htail := ih fun c m => hcomp c (List.mem_cons_of_mem x m)
      have hsepc : (if sep = '\\' then '/' else sep) = '/' := by
        rcases hsep with h | h <;> simp [h]
      show pyReplaceBackslash (joinWithSep sep (x :: y :: ys))
        = joinWithSep '/' (x :: y :: ys)
      rw [joinWithSep, joinWithSep]
      unfold pyReplaceBackslash
      rw [List.map_append, List.map_cons]
      unfold remoteKey pyReplaceBackslash at htail
      rw [htail, hsepc]
      have hxid : List.map (fun c => if c = '\\' then '/' else c) x = x :=
        pyReplaceBackslash_eq_self x hx
      rw [hxid]

/-- Whatever a loop iteration does to the upload-call list: nothing, or
append the entry's remote key. -/
theorem processEntry_uploads (ex : Option (List (List Char))) (sep : Char)
    (st : RunState) (e : FsEntry) :
    (processEntry ex sep st e).uploads = st.uploads
    ∨ (processEntry ex sep st e).uploads = st.uploads ++ [remoteKey sep e.rel] := by
  unfold processEntry
  by_cases hf : e.isFile = false
  · simp [hf]
  · by_cases hx : should_exclude ex e.suffix
    · simp [hf, hx]
    · cases e.uploadExc <;> simp [hf, hx]

/-- Every key passed to `bucket.upload` during the loop either was
already in the list or is the remote key of one of the entries. -/
theorem upload_keys_sources (ex : Option (List (List Char))) (sep : Char)
    (entries : List FsEntry) (st : RunState) :
    ∀ k ∈ (upload_directory_to_b2 ex sep entries st).uploads,
      k ∈ st.uploads ∨ ∃ e ∈ entries, k = remoteKey sep e.rel := by
  induction entries generalizing st with
  | nil => exact fun k hk => Or.inl hk
  | cons e es ih =>
    intro k hk
    rw [upload_directory_to_b2, List.foldl_cons, ← upload_directory_to_b2] at hk
    rcases ih (processEntry ex sep st e) k hk with h | ⟨e', he', hk'⟩
    · rcases processEntry_uploads ex sep st e with hu | hu
      · exact Or.inl (hu ▸ h)
      · rw [hu] at h
        rcases List.mem_append.mp h with h1 | h1
        · exact Or.inl h1
        · exact Or.inr ⟨e, List.mem_cons_self e es,
            (List.mem_singleton.mp h1)⟩
    · exact Or.inr ⟨e', List.mem_cons_of_mem e he', hk'⟩

/-- C4: for every uploaded file the remote key is the root-relative path
joined with forward slashes, on either host path convention, and never
contains a backslash. -/
theorem remote_keys_forward_slash (ex : Option (List (List Char))) (sep : Char)
    (entries : List FsEntry)
    (hsep : sep = '/' ∨ sep = '\\')
    (hcomp : ∀ e ∈ entries, ∀ c ∈ e.rel, '\\' ∉ c) :
    ∀ k ∈ (upload_directory_to_b2 ex sep entries
        { stats := BackupStats.init, uploads := [] }).uploads,
      '\\' ∉ k ∧ ∃ e ∈ entries, k = joinWithSep '/' e.rel := by
  intro k hk
  rcases upload_keys_sources ex sep entries _ k hk with h | ⟨e, he, hk'⟩
  · simp at h
  · subst hk'
    exact ⟨pyReplaceBackslash_no_backslash _,
      e, he, remoteKey_forward sep hsep e.rel (hcomp e he)⟩

/-- Witness for C4: a Windows-style run (`sep = '\\'`) uploading the
nested file `c\d` produces the key `c/d`, keyed by forward slash. -/
theorem remote_keys_forward_slash_check :
    '\\' ∉ (['c', '/', 'd'] : List Char)
    ∧ ∃ e ∈ [(⟨true, [['c'], ['d']], [], none⟩ : FsEntry)],
        ['c', '/', 'd'] = joinWithSep '/' e.rel :=
  remote_keys_forward_slash none '\\' [⟨true, [['c'], ['d']], [], none⟩]
    (Or.inr rfl) (by decide) ['c', '/', 'd'] (by decide)

end BackupToB2

/-! ## Character facts for the case-sensitivity analysis -/

/-- Char order is code-point order. -/
theorem char_le_toNat {a b : Char} : a ≤ b ↔ a.toNat ≤ b.toNat := Char.le_def

/-- Packing a valid code point round-trips through `Char.ofNat`. -/
theorem toNat_ofNat_valid (n : Nat) (h : n.isValidChar) :
    (Char.ofNat n).toNat = n := by
  rw [Char.ofNat, dif_pos h]
  rfl

/-- The output of `pyLowerChar` is never an ASCII uppercase letter. -/
theorem pyLowerChar_not_upper (c : Char) :
    ¬('A' ≤ pyLowerChar c ∧ pyLowerChar c ≤ 'Z') := by
  unfold pyLowerChar
  by_cases h : 'A' ≤ c ∧ c ≤ 'Z'
  · rw [if_pos h]
    obtain ⟨h1, h2⟩ := h
    rw [char_le_toNat] at h1 h2
    have e1 : ('A' : Char).toNat = 65 := rfl
    have e2 : ('Z' : Char).toNat = 90 := rfl
    rw [e1] at h1
    rw [e2] at h2
    intro ⟨g1, g2⟩
    rw [char_le_toNat] at g1 g2
    rw [toNat_ofNat_valid (c.toNat + 32) (Or.inl (by omega))] at g1 g2
    rw [e1] at g1
    rw [e2] at g2
    omega
  · rw [if_neg h]
    exact h

/-- No character of a `pyLower` output is an ASCII uppercase letter. -/
theorem pyLower_no_upper (s : List Char) (c : Char) (hc : c ∈ pyLower s) :
    ¬('A' ≤ c ∧ c ≤ 'Z') := by
  unfold pyLower at hc
  obtain ⟨a, _, ha⟩ := List.mem_map.mp hc
  exact ha ▸ pyLowerChar_not_upper a

/-- ASCII uppercase letters are not Python whitespace. -/
theorem pyIsSpace_false_of_upper (c : Char) (h : 'A' ≤ c ∧ c ≤ 'Z') :
    pyIsSpace c = false := by
  obtain ⟨h1, _⟩ := h
  rw [char_le_toNat] at h1
  have e1 : ('A' : Char).toNat = 65 := rfl
  rw [e1] at h1
  have hne : ∀ w : Char, w.toNat < 65 → ¬c = w := fun w hw e => by
    subst e; omega
  unfold pyIsSpace
  simp only [Bool.or_eq_false_iff, decide_eq_false_iff_not]
  exact ⟨⟨⟨⟨⟨hne ' ' (by decide), hne '\t' (by decide)⟩, hne '\n' (by decide)⟩,
    hne '\r' (by decide)⟩, hne '\x0b' (by decide)⟩, hne '\x0c' (by decide)⟩

/-- Non-whitespace characters survive `dropWhile` of whitespace. -/
theorem mem_dropWhile_of_mem {c : Char} {l : List Char} (h : c ∈ l)
    (hc : pyIsSpace c = false) : c ∈ l.dropWhile pyIsSpace := by
  have hsplit := List.takeWhile_append_dropWhile (p := pyIsSpace) (l := l)
  rcases List.mem_append.mp (hsplit ▸ h) with h1 | h1
  · have := List.mem_takeWhile_imp h1
    rw [hc] at this
    exact absurd this (by decide)
  · exact h1

/-- Non-whitespace characters survive Python `strip()`. -/
theorem mem_pyStrip_of_mem {c : Char} {l : List Char} (h : c ∈ l)
    (hc : pyIsSpace c = false) : c ∈ pyStrip l := by
  unfold pyStrip
  exact List.mem_reverse.mpr (mem_dropWhile_of_mem
    (List.mem_reverse.mpr (mem_dropWhile_of_mem h hc)) hc)

namespace BackupToB2

/-- C9: `should_exclude` compares the stripped exclusion-file entries
verbatim against the lower-cased file extension, so an entry containing
an ASCII uppercase letter equals no lower-cased extension and, as the
sole exclusion entry, excludes no file: case folding happens only on the
file's side. -/
theorem uppercase_entry_never_matches (suffix entry : List Char) (c : Char)
    (hc : c ∈ entry) (hup : 'A' ≤ c ∧ c ≤ 'Z') :
    pyLower suffix ≠ entry
    ∧ should_exclude (some [entry]) suffix = false := by
  have hcs : pyIsSpace c = false := pyIsSpace_false_of_upper c hup
  have hstrip : c ∈ pyStrip entry := mem_pyStrip_of_mem hc hcs
  refine ⟨fun e => pyLower_no_upper suffix c (e ▸ hc) hup, ?_⟩
  unfold should_exclude
  have hne : pyLower suffix ≠ pyStrip entry :=
    fun e => pyLower_no_upper suffix c (e ▸ hstrip) hup
  have hnonempty : (pyStrip entry).isEmpty = false := by
    cases hs : pyStrip entry with
    | nil => rw [hs] at hstrip; exact absurd hstrip (List.not_mem_nil c)
    | cons a as => rfl
  simp only [List.map_cons, List.map_nil, List.filter, hnonempty]
  simp [List.contains_cons, hne]

/-- Witness for C9: the entry ".TMP" never excludes, not even the file
"a.tmp" whose lower-cased extension is ".tmp". -/
theorem uppercase_entry_never_matches_check :
    pyLower ['.', 'T', 'M', 'P'] ≠ ['.', 'T', 'M', 'P']
    ∧ should_exclude (some [['.', 'T', 'M', 'P']]) ['.', 'T', 'M', 'P'] = false :=
  uppercase_entry_never_matches ['.', 'T', 'M', 'P'] ['.', 'T', 'M', 'P'] 'T'
    (by decide) (by decide)

/-- Each loop iteration only grows the counters, and extends the error
list by exactly the number of new failures. -/
theorem processEntry_growth (ex : Option (List (List Char))) (sep : Char)
    (st : RunState) (e : FsEntry) :
    st.stats.files_uploaded ≤ (processEntry ex sep st e).stats.files_uploaded
    ∧ st.stats.files_skipped ≤ (processEntry ex sep st e).stats.files_skipped
    ∧ st.stats.files_failed ≤ (processEntry ex sep st e).stats.files_failed
    ∧ ∃ tail, (processEntry ex sep st e).stats.errors = st.stats.errors ++ tail
        ∧ tail.length = (processEntry ex sep st e).stats.files_failed
            - st.stats.files_failed := by
  unfold processEntry
  by_cases hf : e.isFile = false
  · simp [hf]
  · by_cases hx : should_exclude ex e.suffix
    · simp [hf, hx]
    · cases hu : e.uploadExc <;> simp [hf, hx, hu]

/-- The whole loop only grows the counters, and extends the error list
by exactly the number of new failures. -/
theorem upload_directory_growth (ex : Option (List (List Char))) (sep : Char)
    (entries : List FsEntry) : ∀ st : RunState,
    st.stats.files_uploaded
      ≤ (upload_directory_to_b2 ex sep entries st).stats.files_uploaded
    ∧ st.stats.files_skipped
      ≤ (upload_directory_to_b2 ex sep entries st).stats.files_skipped
    ∧ st.stats.files_failed
      ≤ (upload_directory_to_b2 ex sep entries st).stats.files_failed
    ∧ ∃ tail, (upload_directory_to_b2 ex sep entries st).stats.errors
          = st.stats.errors ++ tail
        ∧ tail.length = (upload_directory_to_b2 ex sep entries st).stats.files_failed
            - st.stats.files_failed := by
  induction entries with
  | nil =>
    intro st
    exact ⟨le_refl _, le_refl _, le_refl _, [],
      by simp [upload_directory_to_b2], by simp [upload_directory_to_b2]⟩
  | cons e es ih =>
    intro st
    rw [upload_directory_to_b2, List.foldl_cons, ← upload_directory_to_b2]
    obtain ⟨m1, m2, m3, t1, ht1, hl1⟩ := processEntry_growth ex sep st e
    obtain ⟨n1, n2, n3, t2, ht2, hl2⟩ := ih (processEntry ex sep st e)
    refine ⟨le_trans m1 n1, le_trans m2 n2, le_trans m3 n3, t1 ++ t2, ?_, ?_⟩
    · rw [ht2, ht1, List.append_assoc]
    · rw [List.length_append, hl1, hl2]
      omega

/-- C10: starting from a state where the error list is as long as the
failure counter, the loop keeps them equal; all three counters and the
error list only ever grow; and an upload failure appends exactly the one
detail string prefixed with the file's relative key. -/
theorem errors_match_failed_and_monotone (ex : Option (List (List Char)))
    (sep : Char) (entries : List FsEntry) (st : RunState)
    (h : st.stats.errors.length = st.stats.files_failed) :
    (upload_directory_to_b2 ex sep entries st).stats.errors.length
      = (upload_directory_to_b2 ex sep entries st).stats.files_failed
    ∧ st.stats.files_uploaded
        ≤ (upload_directory_to_b2 ex sep entries st).stats.files_uploaded
    ∧ st.stats.files_skipped
        ≤ (upload_directory_to_b2 ex sep entries st).stats.files_skipped
    ∧ st.stats.files_failed
        ≤ (upload_directory_to_b2 ex sep entries st).stats.files_failed
    ∧ (∃ tail, (upload_directory_to_b2 ex sep entries st).stats.errors
        = st.stats.errors ++ tail)
    ∧ ∀ e msg st', e.isFile = true → should_exclude ex e.suffix = false →
        e.uploadExc = some msg →
        (processEntry ex sep st' e).stats.errors
          = st'.stats.errors ++ [remoteKey sep e.rel ++ ':' :: ' ' :: msg] := by
  obtain ⟨m1, m2, m3, t, ht, hl⟩ := upload_directory_growth ex sep entries st
  refine ⟨?_, m1, m2, m3, ⟨t, ht⟩, ?_⟩
  · rw [ht, List.length_append, h, hl]
    omega
  · intro e msg st' hf hx hu
    unfold processEntry
    simp [hf, hx, hu]

/-- Witness for C10 on a one-file traversal whose upload fails: one
error string, one failure. -/
theorem errors_match_failed_check :
    (upload_directory_to_b2 none '/' [⟨true, [['b']], [], some ['x']⟩]
        { stats := BackupStats.init, uploads := [] }).stats.errors.length
      = (upload_directory_to_b2 none '/' [⟨true, [['b']], [], some ['x']⟩]
        { stats := BackupStats.init, uploads := [] }).stats.files_failed :=
  (errors_match_failed_and_monotone none '/' [⟨true, [['b']], [], some ['x']⟩]
    { stats := BackupStats.init, uploads := [] } rfl).1

/-- The notifier never lets an exception escape: whatever
`requests.post` does, `send_discord_summary` returns, and it returns the
stats it was given. -/
theorem send_discord_summary_ok (webhook_url : Option String)
    (stats : BackupStats) (duration : String) (logExists : Bool)
    (logSize : Nat) (postExc : Option String) :
    ∃ calls, send_discord_summary webhook_url stats duration logExists logSize postExc
      = .ok (calls, stats) := by
  unfold send_discord_summary
  match webhook_url with
  | none => exact ⟨[], rfl⟩
  | some u =>
    by_cases hu : u = ""
    · exact ⟨[], by simp [hu]⟩
    · refine ⟨[⟨u, summaryText stats duration,
        logExists && decide (logSize < 7500000)⟩], ?_⟩
      cases postExc <;> simp [hu]

/-- Function main finishes with exit code 0 whatever the notifier's call does,
and the run state is exactly what the upload loop produced. -/
theorem b2main_exit_zero (rootEntries : Option (List FsEntry))
    (ex : Option (List (List Char))) (sep : Char) (w : Option String)
    (d : String) (le : Bool) (ls : Nat) (pe : Option String) :
    (b2main rootEntries ex sep w d le ls pe).1 = 0
    ∧ (b2main rootEntries ex sep w d le ls pe).2.1
        = upload_directory_to_b2 ex sep (rootEntries.getD [])
            { stats := BackupStats.init, uploads := [] } := by
  unfold b2main
  obtain ⟨calls, hc⟩ := send_discord_summary_ok w
    (upload_directory_to_b2 ex sep (rootEntries.getD [])
      { stats := BackupStats.init, uploads := [] }).stats d le ls pe
  rw [hc]
  exact ⟨rfl, rfl⟩

/-- C7: with no configured webhook (unset, or the falsy empty string)
the notifier makes zero outbound calls and hands back the stats
untouched. -/
theorem no_webhook_no_calls (webhook_url : Option String) (stats : BackupStats)
    (duration : String) (logExists : Bool) (logSize : Nat) (postExc : Option String)
    (h : webhook_url = none ∨ webhook_url = some "") :
    send_discord_summary webhook_url stats duration logExists logSize postExc
      = .ok ([], stats) := by
  rcases h with h | h <;> subst h <;> rfl

/-- Witness for C7: an unset webhook on fresh stats. -/
theorem no_webhook_no_calls_check :
    send_discord_summary none BackupStats.init "0.0" false 0 none
      = .ok ([], BackupStats.init) :=
  no_webhook_no_calls none BackupStats.init "0.0" false 0 none (Or.inl rfl)

/-- C8: with a configured endpoint and a failing `requests.post`, the
notifier still returns normally — one attempted call, stats unchanged —
and `main` still exits 0: the delivery failure never changes the run's
outcome. -/
theorem webhook_failure_swallowed (u : String) (stats : BackupStats)
    (duration : String) (logExists : Bool) (logSize : Nat) (err : String)
    (hu : u ≠ "") :
    send_discord_summary (some u) stats duration logExists logSize (some err)
      = .ok ([⟨u, summaryText stats duration, logExists && logSize < 7500000⟩], stats)
    ∧ ∀ rootEntries ex sep,
      (b2main rootEntries ex sep (some u) duration logExists logSize (some err)).1 = 0 := by
  constructor
  · unfold send_discord_summary
    simp [hu]
  · intro rootEntries ex sep
    exact (b2main_exit_zero rootEntries ex sep (some u) duration logExists
      logSize (some err)).1

/-- Witness for C8: a failing post against a configured webhook. -/
theorem webhook_failure_swallowed_check :
    send_discord_summary (some "https://h") BackupStats.init "0.0" false 0
        (some "timeout")
      = .ok ([⟨"https://h", summaryText BackupStats.init "0.0",
          false && (0 < 7500000 : Bool)⟩], BackupStats.init)
    ∧ (b2main none none '/' (some "https://h") "0.0" false 0 (some "timeout")).1 = 0 := by
  have h := webhook_failure_swallowed "https://h" BackupStats.init "0.0" false 0
    "timeout" (by decide)
  exact ⟨h.1, h.2 none none '/'⟩

end BackupToB2

/-! ## Schedule registration (old_goody.py) and the interactive script -/

/-- C5 counterexample: for schedule time "03:00" and a `schtasks` exit
status of 1 (which the source never reads), the pipeline still reports
success, and the scheduler call list holds exactly one `/Create` command
and no query — the registrar never re-queries the scheduler, so a
success report is produced without any round-trip confirmation. -/
theorem registrar_reports_success_without_query_cex :
    OldGoody.main_schedule_and_report ['0', '3', ':', '0', '0'] 1
      = .ok ([OldGoody.SchedCall.create "BackupToBackblazeB2" "DAILY"
          ['0', '3', ':', '0', '0'] true], true)
    ∧ (OldGoody.SchedCall.create "BackupToBackblazeB2" "DAILY"
        ['0', '3', ':', '0', '0'] true).isQueryCall = false := by
  exact ⟨rfl, rfl⟩

/-- C5 amended: for any schedule time that splits into hour and minute,
the registrar issues exactly one `schtasks /Create` command (zero-padded
time, `/F`), makes no scheduler query, and the pipeline reports success
unconditionally — whatever exit status the registration command had. -/
theorem schedule_create_only_unconditional_report
    (schedule_time hour minute : List Char) (code : Nat)
    (h : OldGoody.pySplitColon schedule_time = [hour, minute]) :
    OldGoody.main_schedule_and_report schedule_time code
      = .ok ([OldGoody.SchedCall.create "BackupToBackblazeB2" "DAILY"
          (OldGoody.zfill2 hour ++ ':' :: OldGoody.zfill2 minute) true], true)
    ∧ ∀ c ∈ [OldGoody.SchedCall.create "BackupToBackblazeB2" "DAILY"
          (OldGoody.zfill2 hour ++ ':' :: OldGoody.zfill2 minute) true],
        c.isQueryCall = false := by
  constructor
  · unfold OldGoody.main_schedule_and_report OldGoody.schedule_task
    rw [h]
  · intro c hc
    rw [List.mem_singleton.mp hc]
    rfl

/-- Witness for the amended C5 at "03:00" with exit status 0. -/
theorem schedule_create_only_check :
    OldGoody.main_schedule_and_report ['0', '3', ':', '0', '0'] 0
      = .ok ([OldGoody.SchedCall.create "BackupToBackblazeB2" "DAILY"
          (OldGoody.zfill2 ['0', '3'] ++ ':' :: OldGoody.zfill2 ['0', '0']) true],
          true)
    ∧ ∀ c ∈ [OldGoody.SchedCall.create "BackupToBackblazeB2" "DAILY"
          (OldGoody.zfill2 ['0', '3'] ++ ':' :: OldGoody.zfill2 ['0', '0']) true],
        c.isQueryCall = false :=
  schedule_create_only_unconditional_report ['0', '3', ':', '0', '0']
    ['0', '3'] ['0', '0'] 0 rfl

/-- C6 counterexample: with authentication assumed successful and a
non-existent backup root, backup_to_b2.py's `main` runs to completion —
`rglob` yields nothing, an all-zero stats snapshot is recorded and the
process exits 0, not with a non-zero code. -/
theorem missing_root_exits_zero_cex :
    BackupToB2.b2main none none '/' none "0.0" false 0 none
      = (0, ⟨BackupToB2.BackupStats.init, []⟩, []) := rfl

/-- C6 amended: only Backup-ToB2.py treats a missing root as fatal — its
`get_user_input` exits with code 1 before any upload; backup_to_b2.py
has no existence check, so a missing root gives an empty traversal, an
all-zero recorded stats object, and exit code 0. -/
theorem missing_root_per_script :
    (∀ key_id app_key bucket_name directory bucketExists entries,
      InteractiveScript.script_main false key_id app_key bucket_name directory
          bucketExists entries = .error 1)
    ∧ ∀ ex sep w d le ls pe,
      (BackupToB2.b2main none ex sep w d le ls pe).1 = 0
      ∧ (BackupToB2.b2main none ex sep w d le ls pe).2.1
          = ⟨BackupToB2.BackupStats.init, []⟩ := by
  refine ⟨fun _ _ _ _ _ _ => rfl, fun ex sep w d le ls pe => ?_⟩
  obtain ⟨h0, hst⟩ := BackupToB2.b2main_exit_zero none ex sep w d le ls pe
  exact ⟨h0, hst⟩

end B2Backup
